import Mathlib

/-
Verification of the intelliflow-backend change-detection cache and
derived-analytics pipeline.

Shallow embedding conventions:
- JS numbers are modelled as `Rat` (amounts) or `Int` (scores, 32-bit hash
  arithmetic with explicit wraparound); nullable numeric columns are
  `Option Rat`.
- NodeCache instances are modelled as association lists of
  key -> (value, setAt, expiresAt); TTL expiry is lazy on `get`, exactly as
  NodeCache treats expired entries as absent regardless of the sweep.
- Wall-clock time is an explicit `now : Nat` parameter threaded through
  every cache operation.
- External HTTP collaborators (categorizer, forecasting engine) are
  modelled as oracles: an inductive outcome parameter stands for the
  settled result of the outbound call.
-/

namespace Intelliflow

/-! ### Raw transaction rows (as fetched from the store) -/

/-- A raw transaction row as the controllers receive it from the store.
`id` and `transaction_date` are kept as the strings that JS template
interpolation renders (a column missing from the select renders as
"undefined"); `debit`/`credit` are nullable amounts. -/
structure Row where
  id : String
  transaction_date : String
  debit : Option Rat
  credit : Option Rat
  reference : String
  remarks : String
deriving DecidableEq, Repr

/-! ### Fingerprint engine (CacheService.generateTransactionHash)

The source folds the JS hash `hash = ((hash << 5) - hash) + charCodeAt; hash
= hash & hash` over the "|"-joined projection of (id, transaction_date,
debit, credit) per row, then renders it in base 36. -/

/-- Truncation to a signed 32-bit integer, the effect of `hash & hash` (and
of `<<`) on a JS number. -/
def toInt32 (n : Int) : Int :=
  (n + 2 ^ 31) % 2 ^ 32 - 2 ^ 31

/-- One step of the rolling hash: `((hash << 5) - hash) + char`, truncated
to 32 bits by `hash & hash`.  `hash << 5` itself is a 32-bit operation. -/
def hashStep (h : Int) (c : Char) : Int :=
  toInt32 (toInt32 (h * 32) - h + (c.toNat : Int))

/-- The character-code fold of the source's simple hash function, starting
from 0. -/
def jsHash (s : String) : Int :=
  s.toList.foldl hashStep 0

/-- Digit character for base-36 rendering (0-9 then a-z), as produced by
JS `Number.prototype.toString(36)`. -/
def digit36 (n : Nat) : Char :=
  if n < 10 then Char.ofNat (48 + n) else Char.ofNat (87 + n)

/-- Accumulates base-36 digits of `n` (most significant first). The first
argument is structural fuel (any fuel at least `n` is enough, since `n / 36`
strictly decreases); keeping the recursion structural keeps the function
kernel-reducible. -/
def natToBase36Go : Nat → Nat → List Char → List Char
  | 0, _, acc => acc
  | fuel + 1, n, acc =>
    if n = 0 then acc
    else natToBase36Go fuel (n / 36) (digit36 (n % 36) :: acc)

/-- Base-36 rendering of a natural number; 0 renders as "0". -/
def natToBase36 (n : Nat) : String :=
  if n = 0 then "0" else String.mk (natToBase36Go n n [])

/-- JS `n.toString(36)` for a (possibly negative) 32-bit integer. -/
def jsToString36 (n : Int) : String :=
  if n < 0 then "-" ++ natToBase36 n.natAbs else natToBase36 n.toNat

/-- Deterministic rendering of a nullable amount into the template string
(abstracts JS number formatting; `null` renders as "null"). -/
def renderAmt (a : Option Rat) : String :=
  match a with
  | none => "null"
  | some q => if q.den = 1 then toString q.num else toString q

/-- The per-row projection `id|transaction_date|debit|credit`. -/
def rowHashString (t : Row) : String :=
  t.id ++ "|" ++ t.transaction_date ++ "|" ++ renderAmt t.debit ++ "|" ++ renderAmt t.credit

/-- CacheService.generateTransactionHash: empty input yields the sentinel
"empty"; otherwise the 32-bit rolling hash of the joined projection,
rendered in base 36. -/
def generateTransactionHash (rows : List Row) : String :=
  if rows.isEmpty then "empty"
  else jsToString36 (jsHash (String.intercalate "|" (rows.map rowHashString)))

/-! ### NodeCache model -/

/-- One cache entry: the stored value, the instant it was written, and its
expiry instant. -/
structure CacheEntry (V : Type) where
  value : V
  setAt : Nat
  expiresAt : Nat
deriving DecidableEq, Repr

/-- A NodeCache instance: an association list from keys to entries. -/
abbrev NCache (V : Type) := List (String × CacheEntry V)

/-- NodeCache `get`: entries past their expiry are treated as absent
regardless of whether the background sweep has run (lazy expiry). -/
def ncGet {V : Type} (c : NCache V) (now : Nat) (k : String) : Option V :=
  match c.lookup k with
  | none => none
  | some e => if now < e.expiresAt then some e.value else none

/-- NodeCache `set`: (re)writes the key with a fresh entry whose TTL starts
now. -/
def ncSet {V : Type} (c : NCache V) (now ttl : Nat) (k : String) (v : V) : NCache V :=
  (k, ⟨v, now, now + ttl⟩) :: c.filter (fun kv => kv.1 != k)

/-- NodeCache `del`. -/
def ncDel {V : Type} (c : NCache V) (k : String) : NCache V :=
  c.filter (fun kv => kv.1 != k)

/-! ### Classification (ClassifierClient + TransactionController map) -/

/-- Settled outcome of one outbound categorizer call:
a 2xx response carrying `predicted_category` (`ok`), a 2xx response whose
body lacks a usable `predicted_category` (`badBody`), or any thrown axios
error - non-2xx status, connection failure, timeout (`failure`). -/
inductive ClassifierOutcome where
  | ok (category : String)
  | badBody
  | failure
deriving DecidableEq, Repr

/-- ClassifierClient.predictCategory: returns the predicted category on a
well-formed response (the falsy guard also maps an empty category to the
sentinel), and returns "UNCATEGORIZED" instead of throwing on a malformed
body or on any request error. It never throws. -/
def predictCategory (o : ClassifierOutcome) : String :=
  match o with
  | .ok c => if c = "" then "UNCATEGORIZED" else c
  | .badBody => "UNCATEGORIZED"
  | .failure => "UNCATEGORIZED"

/-- A transaction as returned by getMyTransactions: the row plus the
predicted category and the classification-failed flag (absent in JS unless
set, modelled as false). -/
structure ClassifiedTx where
  row : Row
  predicted_category : String
  classification_failed : Bool
deriving DecidableEq, Repr

/-- The body of the getMyTransactions map: the try branch attaches the
predicted category; the catch branch (which would attach
classification_failed: true) is unreachable because
TransactionService.classifyTransactionRecord = ClassifierClient.predictCategory
never throws. -/
def classifyOne (t : Row) (o : ClassifierOutcome) : ClassifiedTx :=
  { row := t, predicted_category := predictCategory o, classification_failed := false }

/-- The fan-out/join of getMyTransactions: Promise.allSettled over the
per-row classification, with one oracle outcome per row. Every promise
fulfills (classifyOne is total), so the fulfilled-filter keeps every
element. -/
def classifyAll (rows : List Row) (outcomes : List ClassifierOutcome) : List ClassifiedTx :=
  List.zipWith classifyOne rows outcomes

/-! ### Cache service state and operations -/

def CLASSIFICATION_CACHE_TTL : Nat := 86400
def FORECAST_CACHE_TTL : Nat := 86400
def TRANSACTION_HASH_TTL : Nat := 86400

/-- A point of the forecasting engine's time series. -/
structure ForecastPoint where
  date : String
  predicted_cashflow : Rat
deriving DecidableEq, Repr

/-- Input points for InsightService.generateInsights. -/
structure InsightPoint where
  date : String
  value : Rat
deriving DecidableEq, Repr

/-- Trend classification used in the summary sentence. -/
inductive TrendClass where
  | upward
  | decline
  | steady
deriving DecidableEq, Repr

/-- The stats block of an insight result. -/
structure InsightStats where
  trend : Rat
  average : Rat
  min : Rat
  max : Rat
deriving DecidableEq, Repr

/-- The summary sentence, abstracted to its data: date range, trend
classification and average. -/
structure InsightSummary where
  fromDate : String
  toDate : String
  trendClass : TrendClass
  average : Rat
deriving DecidableEq, Repr

/-- One insight statement, abstracted from the emitted English sentence to
the branch that produced it (with its numeric/date payload). -/
inductive Insight where
  | trendIncreasing
  | trendDeclining
  | trendStable
  | avgNegative
  | avgBelowFirst
  | avgPositive
  | negativePeriods
  | noNegativePeriods
  | highVolatility
  | lowVolatility
  | peak (date : String) (value : Rat)
  | trough (date : String) (value : Rat)
  | burnRate (rate : Rat)
deriving DecidableEq, Repr

/-- InsightService.generateInsights result; `none` summary/stats model the
empty-input "No forecast data available" result with empty stats. -/
structure InsightResultM where
  summary : Option InsightSummary
  insights : List Insight
  stats : Option InsightStats
deriving DecidableEq, Repr

/-- InsightService.generateInsights: the deterministic rule engine over a
forecast series, in source order: trend, average/liquidity, negative
periods, volatility, peak, trough, burn rate. -/
def generateInsights (predictions : List InsightPoint) : InsightResultM :=
  if predictions.isEmpty then ⟨none, [], none⟩
  else
    let values := predictions.map (fun p => p.value)
    let dates := predictions.map (fun p => p.date)
    let first := values.headD 0
    let last := values.getLastD 0
    let avg := values.sum / (values.length : Rat)
    let minVal := values.foldl min (values.headD 0)
    let maxVal := values.foldl max (values.headD 0)
    let trend := last - first
    let volatility := maxVal - minVal
    let peakIndex := values.indexOf maxVal
    let lowIndex := values.indexOf minVal
    let negatives := values.filter (fun v => v < 0)
    let insights :=
      (if trend > 0 then [Insight.trendIncreasing]
       else if trend < 0 then [Insight.trendDeclining]
       else [Insight.trendStable])
      ++ (if avg < 0 then [Insight.avgNegative]
          else if avg < first then [Insight.avgBelowFirst]
          else [Insight.avgPositive])
      ++ (if values.any (fun v => decide (v < 0)) then [Insight.negativePeriods]
          else [Insight.noNegativePeriods])
      ++ (if volatility > avg * (1 / 2) then [Insight.highVolatility]
          else [Insight.lowVolatility])
      ++ [Insight.peak (dates.getD peakIndex "") maxVal]
      ++ [Insight.trough (dates.getD lowIndex "") minVal]
      ++ (if negatives.length > 0 then
            [Insight.burnRate |negatives.sum / (negatives.length : Rat)|]
          else [])
    let tclass := if trend > 0 then TrendClass.upward
                  else if trend < 0 then TrendClass.decline
                  else TrendClass.steady
    { summary := some ⟨dates.headD "", dates.getLastD "", tclass, avg⟩
      insights := insights
      stats := some ⟨trend, avg, minVal, maxVal⟩ }

/-- The responseData object getForecast caches and returns. -/
structure ForecastData where
  forecast : List ForecastPoint
  insight : InsightResultM
  transactionCount : Nat
  forecastDays : Int
deriving DecidableEq, Repr

/-- The three static NodeCache instances of CacheService. -/
structure CacheState where
  classificationCache : NCache (List ClassifiedTx)
  forecastCache : NCache ForecastData
  transactionHashCache : NCache String
deriving DecidableEq, Repr

/-- The all-empty cache state at process start. -/
def CacheState.initial : CacheState :=
  { classificationCache := [], forecastCache := [], transactionHashCache := [] }

def hashKey (userId : String) : String := "tx_hash_" ++ userId

def classificationKey (userId : String) : String := "classification_" ++ userId

def forecastKey (userId : String) (days : Int) : String :=
  "forecast_" ++ userId ++ "_" ++ toString days

/-- CacheService.hasTransactionChanged: computes the fresh fingerprint,
compares it to the cached one (the JS falsy check also treats an empty
cached string as absent), and stores the fresh fingerprint when there was
no usable cached value or when it differs. Returns the change verdict and
the updated state. -/
def hasTransactionChanged (st : CacheState) (now : Nat) (userId : String)
    (rows : List Row) : Bool × CacheState :=
  let cacheKey := hashKey userId
  let currentHash := generateTransactionHash rows
  let write : CacheState :=
    { st with transactionHashCache := ncSet st.transactionHashCache now TRANSACTION_HASH_TTL cacheKey currentHash }
  match ncGet st.transactionHashCache now cacheKey with
  | none => (true, write)
  | some cachedHash =>
    if cachedHash = "" then (true, write)
    else
      let changed := currentHash != cachedHash
      if changed then (true, write) else (false, st)

/-- CacheService.getClassification. -/
def getClassification (st : CacheState) (now : Nat) (userId : String) :
    Option (List ClassifiedTx) :=
  ncGet st.classificationCache now (classificationKey userId)

/-- CacheService.setClassification. -/
def setClassification (st : CacheState) (now : Nat) (userId : String)
    (data : List ClassifiedTx) : CacheState :=
  { st with classificationCache := ncSet st.classificationCache now CLASSIFICATION_CACHE_TTL (classificationKey userId) data }

/-- CacheService.invalidateClassification. -/
def invalidateClassification (st : CacheState) (userId : String) : CacheState :=
  { st with classificationCache := ncDel st.classificationCache (classificationKey userId) }

/-- CacheService.getForecast. -/
def getForecastCache (st : CacheState) (now : Nat) (userId : String) (days : Int) :
    Option ForecastData :=
  ncGet st.forecastCache now (forecastKey userId days)

/-- CacheService.setForecast. -/
def setForecast (st : CacheState) (now : Nat) (userId : String) (days : Int)
    (data : ForecastData) : CacheState :=
  { st with forecastCache := ncSet st.forecastCache now FORECAST_CACHE_TTL (forecastKey userId days) data }

/-- CacheService.invalidateForecast: deletes every forecast key starting
with the per-user prefix. -/
def invalidateForecast (st : CacheState) (userId : String) : CacheState :=
  { st with forecastCache := st.forecastCache.filter (fun kv => !(kv.1.startsWith ("forecast_" ++ userId ++ "_"))) }

/-! ### Forecast client (ForecastClient.getCashflowForecast) -/

/-- The transaction shape the controllers send to the forecasting engine
(nullable amounts already defaulted to 0 by the controller's map). -/
structure FcTxn where
  transaction_date : String
  debit : Rat
  credit : Rat
deriving DecidableEq, Repr

/-- The controller's `t.debit ?? 0` / `t.credit ?? 0` mapping. -/
def toFcTxn (t : Row) : FcTxn :=
  { transaction_date := t.transaction_date, debit := t.debit.getD 0, credit := t.credit.getD 0 }

/-- Settled outcome of the single outbound forecast call. A 2xx response
carries its parsed body: `some points` when the body has a forecast array,
`none` when the body is malformed (the client casts without validating).
Any thrown axios failure carries the HTTP status (absent for network
errors), the error code and the error message. -/
inductive UpstreamForecast where
  | ok (body : Option (List ForecastPoint))
  | axiosFail (status : Option Nat) (code : String) (message : String)
deriving DecidableEq, Repr

/-- The error message getCashflowForecast throws:
`Failed to fetch forecast: (response status | error code) error message`. -/
def forecastFailMsg (status : Option Nat) (code message : String) : String :=
  "Failed to fetch forecast: "
    ++ (match status with | some s => toString s | none => code)
    ++ " " ++ message

/-- getCashflowForecast: returns the response body unvalidated on success,
and on any axios error throws the forecastFailMsg error. -/
def getCashflowForecast (transactions : List FcTxn) (days : Int)
    (outcome : UpstreamForecast) : Except String (Option (List ForecastPoint)) :=
  match transactions, days, outcome with
  | _, _, .ok body => .ok body
  | _, _, .axiosFail status code message =>
    .error (forecastFailMsg status code message)

/-- The canonical axios failure when the engine host refuses connections
(engine unreachable). -/
def connRefusedFail : UpstreamForecast :=
  .axiosFail none "ECONNREFUSED" "connect ECONNREFUSED 127.0.0.1:8001"

/-- The canonical axios failure when the request exceeds the client
timeout. -/
def timeoutFail : UpstreamForecast :=
  .axiosFail none "ECONNABORTED" "timeout of 15000ms exceeded"

/-- The canonical axios failure when the engine answers with an error
status. -/
def httpStatusFail (s : Nat) : UpstreamForecast :=
  .axiosFail (some s) "ERR_BAD_RESPONSE" ("Request failed with status code " ++ toString s)

/-- The canonical axios failure when the engine hostname does not resolve
(engine unreachable at the DNS level). -/
def enotfoundFail : UpstreamForecast :=
  .axiosFail none "ENOTFOUND" "getaddrinfo ENOTFOUND ml-service.internal"

/-- The canonical axios failure when the TCP connection itself times out
(no response within the OS connect timeout). -/
def etimedoutFail : UpstreamForecast :=
  .axiosFail none "ETIMEDOUT" "connect ETIMEDOUT 10.0.0.5:8001"

/-! ### String containment (JS String.prototype.includes) -/

/-- Whether `pat` is a prefix of `s` (character lists). -/
def listStartsWith : List Char → List Char → Bool
  | _, [] => true
  | [], _ :: _ => false
  | a :: as, b :: bs => a = b && listStartsWith as bs

/-- Whether `pat` occurs contiguously inside `s` (character lists). -/
def listHasSub : List Char → List Char → Bool
  | [], pat => pat.isEmpty
  | c :: rest, pat => listStartsWith (c :: rest) pat || listHasSub rest pat

/-- JS `s.includes(pat)`. -/
def strContains (s pat : String) : Bool :=
  listHasSub s.toList pat.toList

/-- The status selection in getForecast's catch: 503 when the error message
mentions a timeout or a refused connection, 500 otherwise. -/
def catchStatus (msg : String) : Nat :=
  if strContains msg "timeout" || strContains msg "ECONNREFUSED" then 503 else 500

/-- The TypeError thrown when the success path dereferences the forecast
array of a malformed body; it reaches the same catch. -/
def typeErrorMsg : String :=
  "TypeError: Cannot read properties of undefined"

/-! ### Query parameter coercion -/

/-- The result of `Number(req.query.x)`: the parameter may be absent
(Number(undefined) is NaN), non-numeric (NaN), or a number. -/
inductive QueryNum where
  | absent
  | nan
  | num (n : Int)
deriving DecidableEq, Repr

/-- JS `Number(q) || d`: NaN and 0 are falsy and fall back to the
default. -/
def jsOr (q : QueryNum) (d : Int) : Int :=
  match q with
  | .absent => d
  | .nan => d
  | .num n => if n = 0 then d else n

/-- `Math.min(Number(req.query.days) || 30, 365)` - the effective forecast
horizon. -/
def computeDays (daysParam : QueryNum) : Int :=
  min (jsOr daysParam 30) 365

/-! ### ForecastController.getForecast -/

/-- The response of the forecast endpoint, abstracted to its cases:
a fresh result, a cached result, the empty-transactions 400, the
insufficient-data 400, or the catch-all upstream error with its HTTP
status. -/
inductive FcResp where
  | okFresh (data : ForecastData)
  | okCached (data : ForecastData)
  | errEmpty
  | errInsufficient (required : Int) (found : Nat)
  | errUpstream (status : Nat) (message : String)
deriving DecidableEq, Repr

/-- One outbound call to the forecasting engine, with the payload it was
given. -/
structure OutboundCall where
  transactions : List FcTxn
  days : Int
deriving DecidableEq, Repr

/-- The observable result of one getForecast request: the HTTP response,
the cache state afterwards, and the outbound forecast calls made. -/
structure FcRun where
  resp : FcResp
  state : CacheState
  calls : List OutboundCall
deriving DecidableEq, Repr

/-- The responseData object assembled on the success path: the forecast
points, the generated insight, the transaction count and the horizon. -/
def forecastResponseData (rows : List Row) (days : Int)
    (pts : List ForecastPoint) : ForecastData :=
  { forecast := pts
    insight := generateInsights (pts.map (fun p => ⟨p.date, p.predicted_cashflow⟩))
    transactionCount := (rows.map toFcTxn).length
    forecastDays := days }

/-- Steps 4-7 of getForecast: the minimum-transactions guard, the single
outbound call, insight generation (its failures are swallowed; total
here), response assembly and the forecast-cache write. -/
def forecastCore (st : CacheState) (now : Nat) (userId : String)
    (days minTransactions : Int) (rows : List Row)
    (upstream : UpstreamForecast) : FcRun :=
  if (rows.length : Int) < minTransactions then
    ⟨.errInsufficient minTransactions rows.length, st, []⟩
  else
    let txs := rows.map toFcTxn
    let call : OutboundCall := ⟨txs, days⟩
    match getCashflowForecast txs days upstream with
    | .error msg => ⟨.errUpstream (catchStatus msg) msg, st, [call]⟩
    | .ok none => ⟨.errUpstream (catchStatus typeErrorMsg) typeErrorMsg, st, [call]⟩
    | .ok (some pts) =>
      let responseData := forecastResponseData rows days pts
      ⟨.okFresh responseData, setForecast st now userId days responseData, [call]⟩

/-- ForecastController.getForecast, from the point where the user is
authenticated and the transaction rows have been fetched: horizon and
minimum computation, the empty check, change detection with
forecast-cache lookup or invalidation, then the core pipeline. -/
def getForecast (st : CacheState) (now : Nat) (userId : String)
    (daysParam minTxParam : QueryNum) (rows : List Row)
    (upstream : UpstreamForecast) : FcRun :=
  let days := computeDays daysParam
  let minTransactions := jsOr minTxParam 2
  if rows.isEmpty then ⟨.errEmpty, st, []⟩
  else
    let r := hasTransactionChanged st now userId rows
    if r.1 = false then
      match getForecastCache r.2 now userId days with
      | some cached => ⟨.okCached cached, r.2, []⟩
      | none => forecastCore r.2 now userId days minTransactions rows upstream
    else
      forecastCore (invalidateForecast r.2 userId) now userId days minTransactions rows upstream

/-! ### TransactionController.getMyTransactions -/

/-- The response of the transactions endpoint, abstracted to its cases. -/
inductive TxResp where
  | okEmpty
  | okCached (transactions : List ClassifiedTx)
  | okFresh (transactions : List ClassifiedTx)
deriving DecidableEq, Repr

/-- TransactionController.getMyTransactions, from the point where the rows
have been fetched: the empty check, change detection with
classification-cache lookup or invalidation, the classification
fan-out/join, and the classification-cache write. The recompute path is
shared by the changed branch and the unchanged-but-cache-miss branch. -/
def getMyTransactions (st : CacheState) (now : Nat) (userId : String)
    (rows : List Row) (outcomes : List ClassifierOutcome) : TxResp × CacheState :=
  if rows.isEmpty then (.okEmpty, st)
  else
    let r := hasTransactionChanged st now userId rows
    if r.1 = false then
      match getClassification r.2 now userId with
      | some cached => (.okCached cached, r.2)
      | none =>
        let processed := classifyAll rows outcomes
        (.okFresh processed, setClassification r.2 now userId processed)
    else
      let st2 := invalidateClassification r.2 userId
      let processed := classifyAll rows outcomes
      (.okFresh processed, setClassification st2 now userId processed)

/-! ### Credit score engine (CreditScoreController.calculateCreditScore) -/

/-- A transaction as the credit score engine sees it; the date is
abstracted to an integer ordinal so that the trailing-6-months cutoff is
the comparison `sixMonthsAgo <= date`. -/
structure CsTxn where
  transaction_date : Int
  debit : Option Rat
  credit : Option Rat
deriving DecidableEq, Repr

/-- The score and factor list. -/
structure CreditScoreResult where
  score : Int
  factors : List String
deriving DecidableEq, Repr

/-- JS `(length || 1)` as a rational denominator. -/
def jsDenom (n : Nat) : Rat :=
  if n = 0 then 1 else n

/-- The trailing-6-months restriction
`transactions.filter(t => new Date(t.transaction_date) >= sixMonthsAgo)`. -/
def recentOf (sixMonthsAgo : Int) (transactions : List CsTxn) : List CsTxn :=
  transactions.filter (fun t => decide (sixMonthsAgo ≤ t.transaction_date))

/-- Mean of the forecast's predicted cashflows, with the `|| 1` guard on
the denominator. -/
def forecastMean (forecast : List ForecastPoint) : Rat :=
  let vs := forecast.map (fun p => p.predicted_cashflow)
  vs.sum / jsDenom vs.length

/-- Population variance of the forecast's predicted cashflows, with the
`|| 1` guard on the denominator. -/
def forecastVariance (forecast : List ForecastPoint) : Rat :=
  let vs := forecast.map (fun p => p.predicted_cashflow)
  let m := forecastMean forecast
  (vs.map (fun v => (v - m) ^ 2)).sum / jsDenom vs.length

/-- The volatility test `Math.sqrt(variance) > mean * 0.5`, expressed
without square roots: since the standard deviation is nonnegative, the
comparison holds exactly when the half-mean is negative, or when the
variance exceeds the squared half-mean. -/
def stdDevGtHalfMean (forecast : List ForecastPoint) : Bool :=
  let m := forecastMean forecast
  decide (m < 0) || decide ((m * (1 / 2)) ^ 2 < forecastVariance forecast)

/-- The scoring rules of calculateCreditScore in source order, producing
the score before clamping and the factors before the empty-list
fallback. -/
def creditScoreComputation (sixMonthsAgo : Int) (transactions : List CsTxn)
    (forecast : List ForecastPoint) : Int × List String :=
  let recentTxns := recentOf sixMonthsAgo transactions
  let p1 := recentTxns.length < 5
  let largeDebits := recentTxns.filter (fun t => decide ((50000 : Rat) < t.debit.getD 0))
  let p2 := 3 < largeDebits.length
  let credits := recentTxns.map (fun t => t.credit.getD 0)
  let avgCredit := credits.sum / jsDenom recentTxns.length
  let p3 := avgCredit < 20000
  let totalDebit := (recentTxns.map (fun t => t.debit.getD 0)).sum
  let totalCredit := (recentTxns.map (fun t => t.credit.getD 0)).sum
  let p4 := totalCredit < totalDebit
  let pos := (0 : Rat) < forecastMean forecast
  let p6 := stdDevGtHalfMean forecast
  let score : Int := 100
    + (if p1 then -20 else 0)
    + (if p2 then -15 else 0)
    + (if p3 then -20 else 0)
    + (if p4 then -25 else 0)
    + (if pos then 10 else -15)
    + (if p6 then -10 else 0)
  let factors : List String :=
    (if p1 then ["Low transaction frequency in last 6 months"] else [])
    ++ (if p2 then ["Multiple large debit transactions"] else [])
    ++ (if p3 then ["Low average monthly credit"] else [])
    ++ (if p4 then ["Total debits exceed credits"] else [])
    ++ (if pos then ["Positive predicted cashflow trend"]
        else ["Negative predicted cashflow trend"])
    ++ (if p6 then ["High volatility in predicted cashflow"] else [])
  (score, factors)

/-- calculateCreditScore: the scoring rules followed by the clamp to
[0, 100] and the positive-factor fallback for an empty factor list. -/
def calculateCreditScore (sixMonthsAgo : Int) (transactions : List CsTxn)
    (forecast : List ForecastPoint) : CreditScoreResult :=
  let rf := creditScoreComputation sixMonthsAgo transactions forecast
  { score := max 0 (min rf.1 100)
    factors := if rf.2.isEmpty then ["Good credit behavior observed"] else rf.2 }

/-! ### Basic facts about the fingerprint and the detector -/

theorem natToBase36Go_ne_nil_of_acc (fuel n : Nat) (acc : List Char) (h : acc ≠ []) :
    natToBase36Go fuel n acc ≠ [] := by
  induction fuel generalizing n acc with
  | zero => exact h
  | succ fuel ih =>
    rw [natToBase36Go]
    split
    · exact h
    · exact ih _ _ (by simp)

theorem natToBase36Go_ne_nil (fuel n : Nat) (hf : fuel ≠ 0) (h : n ≠ 0) :
    natToBase36Go fuel n [] ≠ [] := by
  cases fuel with
  | zero => exact absurd rfl hf
  | succ fuel =>
    rw [natToBase36Go]
    split
    · exact absurd (by assumption) h
    · exact natToBase36Go_ne_nil_of_acc _ _ _ (by simp)

theorem natToBase36_ne_empty (n : Nat) : natToBase36 n ≠ "" := by
  unfold natToBase36
  split
  · decide
  · next h =>
    intro hc
    exact natToBase36Go_ne_nil n n h h (congrArg String.data hc)

theorem jsToString36_ne_empty (n : Int) : jsToString36 n ≠ "" := by
  unfold jsToString36
  split
  · intro hc
    have h2 := congrArg String.length hc
    simp [String.length_append] at h2
    exact absurd h2.1 (by decide)
  · exact natToBase36_ne_empty _

/-- The fingerprint is never the empty string: empty input yields "empty",
anything else a base-36 rendering with at least one digit. -/
theorem generateTransactionHash_ne_empty (rows : List Row) :
    generateTransactionHash rows ≠ "" := by
  unfold generateTransactionHash
  split
  · decide
  · exact jsToString36_ne_empty _

/-- The change detector only touches the fingerprint cache: the
classification cache is untouched. -/
theorem hasTransactionChanged_classification (st : CacheState) (now : Nat)
    (userId : String) (rows : List Row) :
    (hasTransactionChanged st now userId rows).2.classificationCache
      = st.classificationCache := by
  simp only [hasTransactionChanged]
  split
  · rfl
  · split
    · rfl
    · split <;> rfl

/-- The change detector only touches the fingerprint cache: the forecast
cache is untouched. -/
theorem hasTransactionChanged_forecast (st : CacheState) (now : Nat)
    (userId : String) (rows : List Row) :
    (hasTransactionChanged st now userId rows).2.forecastCache
      = st.forecastCache := by
  simp only [hasTransactionChanged]
  split
  · rfl
  · split
    · rfl
    · split <;> rfl

/-- C3: hasTransactionChanged(userId, transactions) returns true on the
first call for a user with no recorded fingerprint, and on every call with
a recorded fingerprint it returns true exactly when the freshly computed
fingerprint differs from the cached one. -/
theorem changeDetector_verdict (st : CacheState) (now : Nat) (userId : String)
    (rows : List Row) :
    (ncGet st.transactionHashCache now (hashKey userId) = none →
      (hasTransactionChanged st now userId rows).1 = true)
    ∧ (∀ h, ncGet st.transactionHashCache now (hashKey userId) = some h →
        (hasTransactionChanged st now userId rows).1
          = (generateTransactionHash rows != h)) := by
  constructor
  · intro hnone
    simp [hasTransactionChanged, hnone]
  · intro h hsome
    simp only [hasTransactionChanged, hsome]
    by_cases he : h = ""
    · subst he
      simp only [if_pos rfl]
      have hne := generateTransactionHash_ne_empty rows
      simp [bne_iff_ne, hne]
    · simp only [if_neg he]
      by_cases hc : generateTransactionHash rows != h
      · simp [hc]
      · simp only [Bool.not_eq_true] at hc
        simp [hc]

/-- A sample transaction row list used for concrete witnesses. -/
def rows0 : List Row :=
  [⟨"1", "2024-01-01", some 500, some 0, "PAY", "salary"⟩]

/-- The fingerprint of rows0. -/
def hash0 : String := generateTransactionHash rows0

/-- A cache state in which user "u" already has hash0 on record (written
at instant 0). -/
def stRec : CacheState :=
  { CacheState.initial with transactionHashCache := [(hashKey "u", ⟨hash0, 0, 86400⟩)] }

set_option maxRecDepth 16384 in
/-- Witness for C3: a never-seen user yields true; the same rows against
their recorded fingerprint yield false. -/
theorem changeDetector_verdict_w :
    (hasTransactionChanged CacheState.initial 0 "u" rows0).1 = true
    ∧ (hasTransactionChanged stRec 10 "u" rows0).1 = false := by
  constructor
  · exact (changeDetector_verdict CacheState.initial 0 "u" rows0).1 rfl
  · have h := (changeDetector_verdict stRec 10 "u" rows0).2 hash0 rfl
    rw [h]
    decide

set_option maxRecDepth 16384 in
/-- C4 counterexample: with the fingerprint of rows0 recorded at instant 0,
a later call at instant 10 with the same rows returns without touching the
cache at all - the recorded entry keeps its original write instant and
expiry, and the fresh write the claim demands would have produced a
different cache. -/
theorem changeDetector_no_rewrite_cex :
    (hasTransactionChanged stRec 10 "u" rows0).2 = stRec
    ∧ (hasTransactionChanged stRec 10 "u" rows0).2.transactionHashCache.lookup (hashKey "u")
        = some ⟨hash0, 0, 86400⟩
    ∧ ncSet stRec.transactionHashCache 10 TRANSACTION_HASH_TTL (hashKey "u") hash0
        ≠ stRec.transactionHashCache := by
  refine ⟨by decide, by decide, by decide⟩

/-- C4 amended: the fingerprint write is conditional, not unconditional:
on a true verdict (first observation or a differing fingerprint) the fresh
fingerprint is written as a fresh entry, and on a false verdict (fingerprint
unchanged) the cache service performs no write and returns the state
untouched. -/
theorem changeDetector_write_policy (st : CacheState) (now : Nat)
    (userId : String) (rows : List Row) :
    ((hasTransactionChanged st now userId rows).1 = true →
      (hasTransactionChanged st now userId rows).2.transactionHashCache.lookup (hashKey userId)
        = some ⟨generateTransactionHash rows, now, now + TRANSACTION_HASH_TTL⟩)
    ∧ ((hasTransactionChanged st now userId rows).1 = false →
      (hasTransactionChanged st now userId rows).2 = st) := by
  have hw : ∀ v : String,
      (ncSet st.transactionHashCache now TRANSACTION_HASH_TTL (hashKey userId) v).lookup (hashKey userId)
        = some ⟨v, now, now + TRANSACTION_HASH_TTL⟩ := by
    intro v
    simp [ncSet, List.lookup]
  constructor
  · intro _
    simp only [hasTransactionChanged]
    split
    · exact hw _
    · split
      · exact hw _
      · split
        · exact hw _
        · next hfalse =>
          exfalso
          revert hfalse
          simp only [hasTransactionChanged] at *
          intro hfalse
          simp_all [hasTransactionChanged]
  · intro hfalse
    revert hfalse
    simp only [hasTransactionChanged]
    split
    · intro h
      exact absurd h (by simp)
    · split
      · intro h
        exact absurd h (by simp)
      · split
        · intro h
          exact absurd h (by simp)
        · intro _
          rfl

set_option maxRecDepth 16384 in
/-- Witness for the amended C4: the first observation writes the fresh
fingerprint entry; the unchanged repeat call leaves the state untouched. -/
theorem changeDetector_write_policy_w :
    (hasTransactionChanged CacheState.initial 0 "u" rows0).2.transactionHashCache.lookup (hashKey "u")
      = some ⟨generateTransactionHash rows0, 0, 0 + TRANSACTION_HASH_TTL⟩
    ∧ (hasTransactionChanged stRec 10 "u" rows0).2 = stRec := by
  refine ⟨(changeDetector_write_policy CacheState.initial 0 "u" rows0).1 (by decide),
    (changeDetector_write_policy stRec 10 "u" rows0).2 (by decide)⟩

/-! ### C1: classification resilience -/

/-- Whether a categorizer outcome is a well-formed 2xx response. -/
def ClassifierOutcome.isOk : ClassifierOutcome → Bool
  | .ok _ => true
  | .badBody => false
  | .failure => false

/-- A sanity condition on well-formed categorizer responses: a genuine
category is nonempty and is not the sentinel itself. -/
def okCatSane : ClassifierOutcome → Bool
  | .ok c => !(c == "") && !(c == "UNCATEGORIZED")
  | .badBody => true
  | .failure => true

/-- Five sample rows for the classification scenario. -/
def rows5 : List Row :=
  [⟨"1", "2024-01-01", some 500, some 0, "A", "groceries"⟩,
   ⟨"2", "2024-01-02", some 300, some 0, "B", "transport"⟩,
   ⟨"3", "2024-01-03", none, some 1000, "C", "salary"⟩,
   ⟨"4", "2024-01-04", some 50, some 0, "D", "snacks"⟩,
   ⟨"5", "2024-01-05", some 70, some 0, "E", "data"⟩]

/-- Categorizer outcomes for rows5 in which exactly 2 calls fail. -/
def outs5 : List ClassifierOutcome :=
  [.ok "Food", .failure, .ok "Income", .failure, .ok "Transport"]

/-- C1 counterexample: for 5 transactions with exactly 2 categorizer
failures, the batch survives and returns 5 results, the 2 failed items
carry the sentinel category, but zero - not 2 - results are flagged
classification_failed: the controller's flagging catch is unreachable
because ClassifierClient.predictCategory absorbs every failure and
returns the sentinel instead of throwing. -/
theorem classification_flag_cex :
    (classifyAll rows5 outs5).length = 5
    ∧ (outs5.filter (fun o => !o.isOk)).length = 2
    ∧ ((classifyAll rows5 outs5).filter
        (fun t => t.predicted_category == "UNCATEGORIZED")).length = 2
    ∧ ((classifyAll rows5 outs5).filter (fun t => t.classification_failed)).length ≠ 2 := by
  decide

/-- C1 amended: a failed or malformed categorizer response for one
transaction does not fail the batch: the result has one entry per input
transaction, each failed transaction carries the sentinel category
"UNCATEGORIZED", and no transaction is ever flagged classification_failed -
the sentinel count equals the failure count (assuming genuine categorizer
categories are nonempty and distinct from the sentinel). -/
theorem classification_per_item_fallback (rows : List Row)
    (outcomes : List ClassifierOutcome)
    (hlen : outcomes.length = rows.length)
    (hok : ∀ o ∈ outcomes, okCatSane o = true) :
    (classifyAll rows outcomes).length = rows.length
    ∧ ((classifyAll rows outcomes).filter (fun t => t.classification_failed)).length = 0
    ∧ ((classifyAll rows outcomes).filter
        (fun t => t.predicted_category == "UNCATEGORIZED")).length
      = (outcomes.filter (fun o => !o.isOk)).length := by
  induction rows generalizing outcomes with
  | nil =>
    have : outcomes = [] := List.length_eq_zero.mp (by simpa using hlen)
    subst this
    simp [classifyAll]
  | cons r rs ih =>
    cases outcomes with
    | nil => simp at hlen
    | cons o os =>
      have hlen' : os.length = rs.length := by simpa using hlen
      have hok' : ∀ x ∈ os, okCatSane x = true :=
        fun x hx => hok x (List.mem_cons_of_mem _ hx)
      obtain ⟨h1, h2, h3⟩ := ih os hlen' hok'
      cases o with
      | ok c =>
        have hc := hok (.ok c) (List.mem_cons_self _ _)
        simp only [okCatSane, Bool.and_eq_true, Bool.not_eq_eq_eq_not, Bool.not_true,
          beq_eq_false_iff_ne, ne_eq] at hc
        refine ⟨?_, ?_, ?_⟩
        · simp only [classifyAll, List.length_zipWith, List.length_cons] at *
          omega
        · simpa [classifyAll, classifyOne, List.filter_cons] using h2
        · simpa [classifyAll, classifyOne, predictCategory, List.filter_cons,
            ClassifierOutcome.isOk, hc.1, hc.2] using h3
      | badBody =>
        refine ⟨?_, ?_, ?_⟩
        · simp only [classifyAll, List.length_zipWith, List.length_cons] at *
          omega
        · simpa [classifyAll, classifyOne, List.filter_cons] using h2
        · simpa [classifyAll, classifyOne, predictCategory, List.filter_cons,
            ClassifierOutcome.isOk] using h3
      | failure =>
        refine ⟨?_, ?_, ?_⟩
        · simp only [classifyAll, List.length_zipWith, List.length_cons] at *
          omega
        · simpa [classifyAll, classifyOne, List.filter_cons] using h2
        · simpa [classifyAll, classifyOne, predictCategory, List.filter_cons,
            ClassifierOutcome.isOk] using h3

/-- Witness for the amended C1 at the 5-transactions-2-failures scenario. -/
theorem classification_per_item_fallback_w :
    (classifyAll rows5 outs5).length = rows5.length
    ∧ ((classifyAll rows5 outs5).filter (fun t => t.classification_failed)).length = 0
    ∧ ((classifyAll rows5 outs5).filter
        (fun t => t.predicted_category == "UNCATEGORIZED")).length
      = (outs5.filter (fun o => !o.isOk)).length :=
  classification_per_item_fallback rows5 outs5 (by decide) (by decide)

/-! ### C2: invalidation scope at the pipeline entry points -/

/-- A successful lookup comes from a member of the association list. -/
theorem lookup_mem {V : Type} {l : List (String × V)} {k : String} {v : V}
    (h : l.lookup k = some v) : (k, v) ∈ l := by
  induction l with
  | nil => simp [List.lookup] at h
  | cons kv tl ih =>
    cases kv with
    | mk k1 v1 =>
      rw [List.lookup] at h
      revert h
      split
      · next heq =>
        intro h
        obtain rfl : k = k1 := eq_of_beq heq
        obtain rfl : v = v1 := (Option.some.inj h).symm
        exact List.mem_cons_self _ _
      · intro h
        exact List.mem_cons_of_mem _ (ih h)

/-- Looking up a key in a cache just written either finds the fresh entry
or an entry of the underlying cache. -/
theorem lookup_ncSet_cases {V : Type} (c : NCache V) (now ttl : Nat)
    (key k : String) (v : V) (e : CacheEntry V)
    (h : (ncSet c now ttl key v).lookup k = some e) :
    e = ⟨v, now, now + ttl⟩ ∨ (k, e) ∈ c := by
  unfold ncSet at h
  rw [List.lookup] at h
  revert h
  split
  · intro h
    left
    simpa using h.symm
  · intro h
    right
    exact List.mem_of_mem_filter (lookup_mem h)

/-- Looking up the freshly written key finds the fresh entry. -/
theorem lookup_ncSet_self {V : Type} (c : NCache V) (now ttl : Nat)
    (k : String) (v : V) :
    (ncSet c now ttl k v).lookup k = some ⟨v, now, now + ttl⟩ := by
  simp [ncSet, List.lookup]

/-- After invalidateForecast, no forecast entry for that user remains. -/
theorem invalidateForecast_no_user_key (s : CacheState) (u k : String)
    (e : CacheEntry ForecastData)
    (hmem : (k, e) ∈ (invalidateForecast s u).forecastCache)
    (hp : k.startsWith ("forecast_" ++ u ++ "_") = true) : False := by
  unfold invalidateForecast at hmem
  have hpred := List.of_mem_filter hmem
  simp only [hp] at hpred
  simp at hpred

/-- forecastCore never touches the classification cache. -/
theorem forecastCore_classification (st : CacheState) (now : Nat) (uid : String)
    (days minTx : Int) (rows : List Row) (o : UpstreamForecast) :
    (forecastCore st now uid days minTx rows o).state.classificationCache
      = st.classificationCache := by
  unfold forecastCore
  split
  · rfl
  · cases h : getCashflowForecast (List.map toFcTxn rows) days o with
    | error msg => simp [h]
    | ok body =>
      cases body with
      | none => simp [h]
      | some pts => simp [h, setForecast]

/-- forecastCore either leaves the forecast cache alone or performs exactly
one fresh write at this user's key for the requested horizon. -/
theorem forecastCore_forecastCache (st : CacheState) (now : Nat) (uid : String)
    (days minTx : Int) (rows : List Row) (o : UpstreamForecast) :
    (forecastCore st now uid days minTx rows o).state.forecastCache = st.forecastCache
    ∨ ∃ d, d.forecastDays = days
        ∧ (forecastCore st now uid days minTx rows o).state.forecastCache
          = ncSet st.forecastCache now FORECAST_CACHE_TTL (forecastKey uid days) d := by
  unfold forecastCore
  split
  · exact Or.inl rfl
  · cases h : getCashflowForecast (List.map toFcTxn rows) days o with
    | error msg => exact Or.inl (by simp [h])
    | ok body =>
      cases body with
      | none => exact Or.inl (by simp [h])
      | some pts =>
        exact Or.inr ⟨forecastResponseData rows days pts, rfl, by simp [h, setForecast]⟩

/-- After the forecast path invalidates and re-runs, every surviving
forecast entry for that user was written at this instant. -/
theorem forecastCore_fresh_user_entries (s : CacheState) (now : Nat) (uid : String)
    (days minTx : Int) (rows : List Row) (o : UpstreamForecast)
    (k : String) (e : CacheEntry ForecastData)
    (hlk : (forecastCore (invalidateForecast s uid) now uid days minTx rows o).state.forecastCache.lookup k
        = some e)
    (hp : k.startsWith ("forecast_" ++ uid ++ "_") = true) :
    e.setAt = now := by
  rcases forecastCore_forecastCache (invalidateForecast s uid) now uid days minTx rows o with hc | ⟨d, _, hc⟩
  · rw [hc] at hlk
    exact absurd hp (fun hp => invalidateForecast_no_user_key s uid k e (lookup_mem hlk) hp)
  · rw [hc] at hlk
    rcases lookup_ncSet_cases _ _ _ _ _ _ _ hlk with he | hmem
    · rw [he]
    · exact absurd hp (fun hp => invalidateForecast_no_user_key s uid k e hmem hp)

/-- Sample cached classification value. -/
def clsVal : List ClassifiedTx := []

/-- Sample cached forecast value. -/
def fcVal : ForecastData := ⟨[], ⟨none, [], none⟩, 0, 30⟩

/-- A cache state for user "u" holding a classification entry, a forecast
entry for horizon 30, and a stale fingerprint that differs from the
fingerprint of rows0. -/
def stC : CacheState :=
  { classificationCache := [(classificationKey "u", ⟨clsVal, 0, 86400⟩)]
    forecastCache := [(forecastKey "u" 30, ⟨fcVal, 0, 86400⟩)]
    transactionHashCache := [(hashKey "u", ⟨"stale", 0, 86400⟩)] }

set_option maxRecDepth 16384 in
/-- C2 counterexample: with a change detected (stale fingerprint differs),
the forecast entry point leaves the classification entry for that user in
place, and the transaction entry point leaves the forecast entry for that
user in place - neither entry point invalidates both namespaces. -/
theorem invalidation_scope_cex :
    (hasTransactionChanged stC 10 "u" rows0).1 = true
    ∧ (getForecast stC 10 "u" .absent .absent rows0 (.ok (some []))).state.classificationCache.lookup
        (classificationKey "u") = some ⟨clsVal, 0, 86400⟩
    ∧ (getMyTransactions stC 10 "u" rows0 [.ok "Food"]).2.forecastCache.lookup
        (forecastKey "u" 30) = some ⟨fcVal, 0, 86400⟩ := by
  refine ⟨by decide, by decide, by decide⟩

/-- C2 amended: on a true change verdict with a nonempty transaction set,
each entry point invalidates only its own namespace before re-running the
pipeline: the forecast path leaves the classification namespace untouched
and deletes the user's forecast entries (any surviving forecast entry for
that user was written by this request); the transaction path leaves the
forecast namespace untouched and deletes the user's classification entry
(any surviving classification entry for that user was written by this
request). -/
theorem invalidation_scope (st : CacheState) (now : Nat) (userId : String)
    (rows : List Row) (outcomes : List ClassifierOutcome)
    (daysParam minTxParam : QueryNum) (upstream : UpstreamForecast)
    (hch : (hasTransactionChanged st now userId rows).1 = true)
    (hne : rows ≠ []) :
    ((getForecast st now userId daysParam minTxParam rows upstream).state.classificationCache
        = st.classificationCache)
    ∧ (∀ k e, (getForecast st now userId daysParam minTxParam rows upstream).state.forecastCache.lookup k
          = some e →
        k.startsWith ("forecast_" ++ userId ++ "_") = true → e.setAt = now)
    ∧ ((getMyTransactions st now userId rows outcomes).2.forecastCache = st.forecastCache)
    ∧ (∀ e, (getMyTransactions st now userId rows outcomes).2.classificationCache.lookup
          (classificationKey userId) = some e → e.setAt = now) := by
  have hemp : rows.isEmpty = false := by
    cases rows with
    | nil => exact absurd rfl hne
    | cons a l => rfl
  refine ⟨?_, ?_, ?_, ?_⟩
  · simp only [getForecast, hemp, Bool.false_eq_true, if_false, hch, Bool.true_eq_false]
    rw [forecastCore_classification]
    exact hasTransactionChanged_classification st now userId rows
  · intro k e hlk hp
    simp only [getForecast, hemp, Bool.false_eq_true, if_false, hch, Bool.true_eq_false] at hlk
    exact forecastCore_fresh_user_entries _ now userId _ _ rows upstream k e hlk hp
  · simp only [getMyTransactions, hemp, Bool.false_eq_true, if_false, hch, Bool.true_eq_false]
    show (setClassification _ _ _ _).forecastCache = _
    rw [show ∀ s a b c, (setClassification s a b c).forecastCache = s.forecastCache from fun _ _ _ _ => rfl]
    rw [show ∀ s a, (invalidateClassification s a).forecastCache = s.forecastCache from fun _ _ => rfl]
    exact hasTransactionChanged_forecast st now userId rows
  · intro e he
    simp only [getMyTransactions, hemp, Bool.false_eq_true, if_false, hch, Bool.true_eq_false] at he
    rw [show ∀ s a b c, (setClassification s a b c).classificationCache
        = ncSet s.classificationCache a CLASSIFICATION_CACHE_TTL (classificationKey b) c
      from fun _ _ _ _ => rfl] at he
    rw [lookup_ncSet_self] at he
    cases he
    rfl

set_option maxRecDepth 16384 in
/-- Witness for the amended C2 at the concrete changed state stC. -/
theorem invalidation_scope_w :
    ((getForecast stC 10 "u" .absent .absent rows0 (.ok (some []))).state.classificationCache
        = stC.classificationCache)
    ∧ (∀ k e, (getForecast stC 10 "u" .absent .absent rows0 (.ok (some []))).state.forecastCache.lookup k
          = some e →
        k.startsWith ("forecast_" ++ "u" ++ "_") = true → e.setAt = 10)
    ∧ ((getMyTransactions stC 10 "u" rows0 [.ok "Food"]).2.forecastCache = stC.forecastCache)
    ∧ (∀ e, (getMyTransactions stC 10 "u" rows0 [.ok "Food"]).2.classificationCache.lookup
          (classificationKey "u") = some e → e.setAt = 10) :=
  invalidation_scope stC 10 "u" rows0 [.ok "Food"] .absent .absent (.ok (some []))
    (by decide) (by decide)


/-! ### Reduction lemmas for getForecast -/

/-- When a change is detected (nonempty rows), getForecast invalidates the
user's forecast namespace and runs the core pipeline. -/
theorem getForecast_changed_core (st : CacheState) (now : Nat) (userId : String)
    (daysParam minTxParam : QueryNum) (rows : List Row) (upstream : UpstreamForecast)
    (hch : (hasTransactionChanged st now userId rows).1 = true)
    (hne : rows ≠ []) :
    getForecast st now userId daysParam minTxParam rows upstream
      = forecastCore (invalidateForecast (hasTransactionChanged st now userId rows).2 userId)
          now userId (computeDays daysParam) (jsOr minTxParam 2) rows upstream := by
  have hemp : rows.isEmpty = false := by
    cases rows with
    | nil => exact absurd rfl hne
    | cons a l => rfl
  simp [getForecast, hemp, hch]

/-- Below the minimum, the core pipeline rejects without any outbound
call. -/
theorem forecastCore_insufficient (st : CacheState) (now : Nat) (uid : String)
    (days minTx : Int) (rows : List Row) (o : UpstreamForecast)
    (hlt : (rows.length : Int) < minTx) :
    forecastCore st now uid days minTx rows o
      = ⟨.errInsufficient minTx rows.length, st, []⟩ := by
  unfold forecastCore
  rw [if_pos hlt]

/-- At or above the minimum, an axios failure aborts the core pipeline with
the catch-classified status, leaving the state untouched. -/
theorem forecastCore_axios (st : CacheState) (now : Nat) (uid : String)
    (days minTx : Int) (rows : List Row) (status : Option Nat) (code message : String)
    (hmin : minTx ≤ (rows.length : Int)) :
    forecastCore st now uid days minTx rows (.axiosFail status code message)
      = ⟨.errUpstream (catchStatus (forecastFailMsg status code message))
            (forecastFailMsg status code message),
          st, [⟨rows.map toFcTxn, days⟩]⟩ := by
  unfold forecastCore
  rw [if_neg (not_lt.mpr hmin)]
  rfl

/-- At or above the minimum, a malformed 2xx body makes the success path
throw the TypeError, which the catch classifies as 500. -/
theorem forecastCore_malformed (st : CacheState) (now : Nat) (uid : String)
    (days minTx : Int) (rows : List Row)
    (hmin : minTx ≤ (rows.length : Int)) :
    forecastCore st now uid days minTx rows (.ok none)
      = ⟨.errUpstream (catchStatus typeErrorMsg) typeErrorMsg,
          st, [⟨rows.map toFcTxn, days⟩]⟩ := by
  unfold forecastCore
  rw [if_neg (not_lt.mpr hmin)]
  rfl

/-! ### C5: insufficient-data guard -/

/-- C5: for a single-transaction list with the default minimum of 2,
getForecast makes zero outbound forecast calls, and whenever the forecast
cache has no live entry for the computed horizon it returns the
InsufficientData error (required 2, found 1); the guard sits before the
outbound call, so the call count is zero on every path. -/
theorem insufficient_data_guard (st : CacheState) (now : Nat) (userId : String)
    (daysParam : QueryNum) (upstream : UpstreamForecast) (r : Row) :
    (getForecast st now userId daysParam .absent [r] upstream).calls = []
    ∧ (getForecastCache st now userId (computeDays daysParam) = none →
        (getForecast st now userId daysParam .absent [r] upstream).resp
          = .errInsufficient 2 1) := by
  have hfc : (hasTransactionChanged st now userId [r]).2.forecastCache = st.forecastCache :=
    hasTransactionChanged_forecast st now userId [r]
  have hlt : (([r] : List Row).length : Int) < 2 := by
    simp
  have hcore : ∀ s, forecastCore s now userId (computeDays daysParam) 2 [r] upstream
      = ⟨.errInsufficient 2 1, s, []⟩ :=
    fun s => forecastCore_insufficient s now userId _ _ [r] upstream hlt
  have hj : jsOr QueryNum.absent 2 = 2 := rfl
  constructor
  · cases hb : (hasTransactionChanged st now userId [r]).1 with
    | false =>
      simp only [getForecast, List.isEmpty_cons, hb]
      cases hget : getForecastCache (hasTransactionChanged st now userId [r]).2 now userId
          (computeDays daysParam) with
      | some cached => simp [hget]
      | none => simp [hget, hj, hcore]
    | true =>
      simp only [getForecast, List.isEmpty_cons, hb]
      simp [hj, hcore]
  · intro hmiss
    have hmiss2 : getForecastCache (hasTransactionChanged st now userId [r]).2 now userId
        (computeDays daysParam) = none := by
      unfold getForecastCache at hmiss ⊢
      rw [hfc]
      exact hmiss
    cases hb : (hasTransactionChanged st now userId [r]).1 with
    | false =>
      simp only [getForecast, List.isEmpty_cons, hb]
      simp [hmiss2, hj, hcore]
    | true =>
      simp only [getForecast, List.isEmpty_cons, hb]
      simp [hj, hcore]

/-- Witness for C5 on the cold initial state. -/
theorem insufficient_data_guard_w :
    (getForecast CacheState.initial 0 "u" QueryNum.absent QueryNum.absent rows0 (.ok (some []))).calls = []
    ∧ (getForecast CacheState.initial 0 "u" QueryNum.absent QueryNum.absent rows0 (.ok (some []))).resp
        = .errInsufficient 2 1 := by
  have h := insufficient_data_guard CacheState.initial 0 "u" QueryNum.absent (.ok (some []))
    ⟨"1", "2024-01-01", some 500, some 0, "PAY", "salary"⟩
  exact ⟨h.1, h.2 (by decide)⟩


/-! ### C8: upstream failure taxonomy -/

/-- Two sample rows, enough to clear the default minimum. -/
def rows2 : List Row :=
  [⟨"1", "2024-01-01", some 500, some 0, "A", "groceries"⟩,
   ⟨"2", "2024-01-02", some 0, some 900, "B", "salary"⟩]

set_option maxRecDepth 16384 in
/-- C8 counterexample: a DNS resolution failure (engine unreachable) and a
connection-level timeout are genuine unreachable/timed-out outcomes, yet
the catch's message-substring test classifies both as 500 - the very
status an engine error response receives - because their axios messages
contain neither "timeout" nor "ECONNREFUSED"; so not every
unreachable/timeout failure yields the distinct upstream-unavailable
error the claim asserts. -/
theorem upstream_unavailable_cex :
    ((getForecast CacheState.initial 0 "u" QueryNum.absent QueryNum.absent rows2 enotfoundFail).resp
        = .errUpstream 500 (forecastFailMsg none "ENOTFOUND" "getaddrinfo ENOTFOUND ml-service.internal"))
    ∧ ((getForecast CacheState.initial 0 "u" QueryNum.absent QueryNum.absent rows2 etimedoutFail).resp
        = .errUpstream 500 (forecastFailMsg none "ETIMEDOUT" "connect ETIMEDOUT 10.0.0.5:8001"))
    ∧ ((getForecast CacheState.initial 0 "u" QueryNum.absent QueryNum.absent rows2 (httpStatusFail 500)).resp
        = .errUpstream 500 (forecastFailMsg (some 500) "ERR_BAD_RESPONSE" "Request failed with status code 500"))
    ∧ (500 : Nat) ≠ 503 := by
  refine ⟨by decide, by decide, by decide, by decide⟩

/-- C8 amended: once the pipeline reaches the outbound call (change
detected, enough transactions), the catch classifies the failure by
message substring, not by failure kind: connection-refused and
request-timeout failures, whose messages contain "ECONNREFUSED" or
"timeout", yield the 503 upstream-unavailable error, while an
error-status response, a malformed body, and equally the remaining
unreachable/timed-out manifestations whose messages contain neither
marker (DNS ENOTFOUND, connection-level ETIMEDOUT) all yield the same 500
upstream-error; every upstream failure aborts the request with an error
response and writes nothing into the forecast cache. -/
theorem upstream_failure_taxonomy (st : CacheState) (now : Nat) (userId : String)
    (daysParam minTxParam : QueryNum) (rows : List Row)
    (hch : (hasTransactionChanged st now userId rows).1 = true)
    (hne : rows ≠ [])
    (hmin : jsOr minTxParam 2 ≤ (rows.length : Int)) :
    ((getForecast st now userId daysParam minTxParam rows connRefusedFail).resp
        = .errUpstream 503 (forecastFailMsg none "ECONNREFUSED" "connect ECONNREFUSED 127.0.0.1:8001"))
    ∧ ((getForecast st now userId daysParam minTxParam rows timeoutFail).resp
        = .errUpstream 503 (forecastFailMsg none "ECONNABORTED" "timeout of 15000ms exceeded"))
    ∧ ((getForecast st now userId daysParam minTxParam rows (httpStatusFail 500)).resp
        = .errUpstream 500 (forecastFailMsg (some 500) "ERR_BAD_RESPONSE" "Request failed with status code 500"))
    ∧ ((getForecast st now userId daysParam minTxParam rows (.ok none)).resp
        = .errUpstream 500 typeErrorMsg)
    ∧ ((getForecast st now userId daysParam minTxParam rows enotfoundFail).resp
        = .errUpstream 500 (forecastFailMsg none "ENOTFOUND" "getaddrinfo ENOTFOUND ml-service.internal"))
    ∧ ((getForecast st now userId daysParam minTxParam rows etimedoutFail).resp
        = .errUpstream 500 (forecastFailMsg none "ETIMEDOUT" "connect ETIMEDOUT 10.0.0.5:8001"))
    ∧ (∀ status code message,
        (getForecast st now userId daysParam minTxParam rows (.axiosFail status code message)).resp
          = .errUpstream (catchStatus (forecastFailMsg status code message))
              (forecastFailMsg status code message)
        ∧ ∀ kv ∈ (getForecast st now userId daysParam minTxParam rows
              (.axiosFail status code message)).state.forecastCache,
            kv ∈ st.forecastCache)
    ∧ (∀ kv ∈ (getForecast st now userId daysParam minTxParam rows (.ok none)).state.forecastCache,
        kv ∈ st.forecastCache) := by
  have hred : ∀ o, getForecast st now userId daysParam minTxParam rows o
      = forecastCore (invalidateForecast (hasTransactionChanged st now userId rows).2 userId)
          now userId (computeDays daysParam) (jsOr minTxParam 2) rows o :=
    fun o => getForecast_changed_core st now userId daysParam minTxParam rows o hch hne
  have hsub : ∀ kv : String × CacheEntry ForecastData,
      kv ∈ (invalidateForecast (hasTransactionChanged st now userId rows).2 userId).forecastCache →
      kv ∈ st.forecastCache := by
    intro kv hkv
    simp only [invalidateForecast] at hkv
    have h1 := List.mem_of_mem_filter hkv
    rw [hasTransactionChanged_forecast] at h1
    exact h1
  have haxios : ∀ status code message,
      getForecast st now userId daysParam minTxParam rows (.axiosFail status code message)
        = ⟨.errUpstream (catchStatus (forecastFailMsg status code message))
              (forecastFailMsg status code message),
            invalidateForecast (hasTransactionChanged st now userId rows).2 userId,
            [⟨rows.map toFcTxn, computeDays daysParam⟩]⟩ := by
    intro status code message
    rw [hred]
    rw [forecastCore_axios]
    exact hmin
  have hmal : getForecast st now userId daysParam minTxParam rows (.ok none)
      = ⟨.errUpstream (catchStatus typeErrorMsg) typeErrorMsg,
          invalidateForecast (hasTransactionChanged st now userId rows).2 userId,
          [⟨rows.map toFcTxn, computeDays daysParam⟩]⟩ := by
    rw [hred]
    rw [forecastCore_malformed]
    exact hmin
  have c1 : catchStatus (forecastFailMsg none "ECONNREFUSED" "connect ECONNREFUSED 127.0.0.1:8001") = 503 := by decide
  have c2 : catchStatus (forecastFailMsg none "ECONNABORTED" "timeout of 15000ms exceeded") = 503 := by decide
  have c3 : catchStatus (forecastFailMsg (some 500) "ERR_BAD_RESPONSE" "Request failed with status code 500") = 500 := by decide
  have c4 : catchStatus typeErrorMsg = 500 := by decide
  have c5 : catchStatus (forecastFailMsg none "ENOTFOUND" "getaddrinfo ENOTFOUND ml-service.internal") = 500 := by decide
  have c6 : catchStatus (forecastFailMsg none "ETIMEDOUT" "connect ETIMEDOUT 10.0.0.5:8001") = 500 := by decide
  refine ⟨?_, ?_, ?_, ?_, ?_, ?_, ?_, ?_⟩
  · rw [show connRefusedFail = UpstreamForecast.axiosFail none "ECONNREFUSED" "connect ECONNREFUSED 127.0.0.1:8001" from rfl,
      haxios, c1]
  · rw [show timeoutFail = UpstreamForecast.axiosFail none "ECONNABORTED" "timeout of 15000ms exceeded" from rfl,
      haxios, c2]
  · rw [show httpStatusFail 500 = UpstreamForecast.axiosFail (some 500) "ERR_BAD_RESPONSE" "Request failed with status code 500" from rfl,
      haxios, c3]
  · rw [hmal, c4]
  · rw [show enotfoundFail = UpstreamForecast.axiosFail none "ENOTFOUND" "getaddrinfo ENOTFOUND ml-service.internal" from rfl,
      haxios, c5]
  · rw [show etimedoutFail = UpstreamForecast.axiosFail none "ETIMEDOUT" "connect ETIMEDOUT 10.0.0.5:8001" from rfl,
      haxios, c6]
  · intro status code message
    refine ⟨by rw [haxios], ?_⟩
    intro kv hkv
    rw [haxios] at hkv
    exact hsub kv hkv
  · intro kv hkv
    rw [hmal] at hkv
    exact hsub kv hkv

set_option maxRecDepth 16384 in
/-- Witness for the amended C8: on the cold initial state with two
transactions, the connection-refused and request-timeout outcomes yield
503 while the error-status, malformed-body, DNS-failure and
connection-timeout outcomes all yield 500. -/
theorem upstream_failure_taxonomy_w :
    ((getForecast CacheState.initial 0 "u" QueryNum.absent QueryNum.absent rows2 connRefusedFail).resp
        = .errUpstream 503 (forecastFailMsg none "ECONNREFUSED" "connect ECONNREFUSED 127.0.0.1:8001"))
    ∧ ((getForecast CacheState.initial 0 "u" QueryNum.absent QueryNum.absent rows2 timeoutFail).resp
        = .errUpstream 503 (forecastFailMsg none "ECONNABORTED" "timeout of 15000ms exceeded"))
    ∧ ((getForecast CacheState.initial 0 "u" QueryNum.absent QueryNum.absent rows2 (httpStatusFail 500)).resp
        = .errUpstream 500 (forecastFailMsg (some 500) "ERR_BAD_RESPONSE" "Request failed with status code 500"))
    ∧ ((getForecast CacheState.initial 0 "u" QueryNum.absent QueryNum.absent rows2 (.ok none)).resp
        = .errUpstream 500 typeErrorMsg)
    ∧ ((getForecast CacheState.initial 0 "u" QueryNum.absent QueryNum.absent rows2 enotfoundFail).resp
        = .errUpstream 500 (forecastFailMsg none "ENOTFOUND" "getaddrinfo ENOTFOUND ml-service.internal"))
    ∧ ((getForecast CacheState.initial 0 "u" QueryNum.absent QueryNum.absent rows2 etimedoutFail).resp
        = .errUpstream 500 (forecastFailMsg none "ETIMEDOUT" "connect ETIMEDOUT 10.0.0.5:8001")) := by
  have h := upstream_failure_taxonomy CacheState.initial 0 "u" QueryNum.absent QueryNum.absent rows2
    (by decide) (by decide) (by decide)
  exact ⟨h.1, h.2.1, h.2.2.1, h.2.2.2.1, h.2.2.2.2.1, h.2.2.2.2.2.1⟩

/-! ### C10: horizon cap and default -/

/-- forecastCore makes either no outbound call or exactly one, carrying the
computed horizon. -/
theorem forecastCore_calls (st : CacheState) (now : Nat) (uid : String)
    (days minTx : Int) (rows : List Row) (o : UpstreamForecast) :
    (forecastCore st now uid days minTx rows o).calls = []
    ∨ (forecastCore st now uid days minTx rows o).calls = [⟨rows.map toFcTxn, days⟩] := by
  unfold forecastCore
  split
  · exact Or.inl rfl
  · cases h : getCashflowForecast (List.map toFcTxn rows) days o with
    | error msg => exact Or.inr (by simp [h])
    | ok body =>
      cases body with
      | none => exact Or.inr (by simp [h])
      | some pts => exact Or.inr (by simp [h])

/-- C10: the effective horizon is the minimum of the requested days and
365, defaulting to 30 when the days parameter is absent or NaN; hence it
never exceeds 365, every outbound forecast call carries exactly that
horizon, and every forecast-cache entry surviving a request either
predates the request or stores that horizon. -/
theorem horizon_cap (st : CacheState) (now : Nat) (userId : String)
    (daysParam minTxParam : QueryNum) (rows : List Row) (upstream : UpstreamForecast) :
    computeDays QueryNum.absent = 30
    ∧ computeDays QueryNum.nan = 30
    ∧ computeDays daysParam ≤ 365
    ∧ (∀ c ∈ (getForecast st now userId daysParam minTxParam rows upstream).calls,
        c.days = computeDays daysParam ∧ c.days ≤ 365)
    ∧ (∀ kv ∈ (getForecast st now userId daysParam minTxParam rows upstream).state.forecastCache,
        kv ∈ st.forecastCache ∨ kv.2.value.forecastDays = computeDays daysParam) := by
  have hcap : computeDays daysParam ≤ 365 := min_le_right _ _
  have hcore : ∀ X c, c ∈ (forecastCore X now userId (computeDays daysParam)
      (jsOr minTxParam 2) rows upstream).calls → c.days = computeDays daysParam := by
    intro X c hc
    rcases forecastCore_calls X now userId (computeDays daysParam) (jsOr minTxParam 2) rows upstream with h | h
    · rw [h] at hc
      simp at hc
    · rw [h] at hc
      simp at hc
      subst hc
      rfl
  have hmemcore : ∀ X, (∀ kv : String × CacheEntry ForecastData, kv ∈ X.forecastCache → kv ∈ st.forecastCache) →
      ∀ kv, kv ∈ (forecastCore X now userId (computeDays daysParam)
          (jsOr minTxParam 2) rows upstream).state.forecastCache →
        kv ∈ st.forecastCache ∨ kv.2.value.forecastDays = computeDays daysParam := by
    intro X hX kv hkv
    rcases forecastCore_forecastCache X now userId (computeDays daysParam)
        (jsOr minTxParam 2) rows upstream with h | ⟨d, hd, h⟩
    · rw [h] at hkv
      exact Or.inl (hX kv hkv)
    · rw [h] at hkv
      unfold ncSet at hkv
      rcases List.mem_cons.mp hkv with h1 | h1
      · subst h1
        exact Or.inr hd
      · exact Or.inl (hX kv (List.mem_of_mem_filter h1))
  refine ⟨rfl, rfl, hcap, ?_, ?_⟩
  · intro c hc
    simp only [getForecast] at hc
    split at hc
    · simp at hc
    · split at hc
      · split at hc
        · simp at hc
        · exact ⟨hcore _ c hc, by rw [hcore _ c hc]; exact hcap⟩
      · exact ⟨hcore _ c hc, by rw [hcore _ c hc]; exact hcap⟩
  · intro kv hkv
    simp only [getForecast] at hkv
    split at hkv
    · exact Or.inl hkv
    · split at hkv
      · split at hkv
        · left
          have h2 : kv ∈ (hasTransactionChanged st now userId rows).2.forecastCache := hkv
          rw [hasTransactionChanged_forecast] at h2
          exact h2
        · refine hmemcore _ ?_ kv hkv
          intro kv2 h2
          rw [hasTransactionChanged_forecast] at h2
          exact h2
      · refine hmemcore _ ?_ kv hkv
        intro kv2 h2
        simp only [invalidateForecast] at h2
        have h3 := List.mem_of_mem_filter h2
        rw [hasTransactionChanged_forecast] at h3
        exact h3

set_option maxRecDepth 16384 in
/-- Witness for C10: the single outbound call of a concrete cold run with
no days parameter carries horizon 30 = computeDays absent, and the fresh
cache entry of that run stores horizon 30. -/
theorem horizon_cap_w :
    ((⟨rows2.map toFcTxn, 30⟩ : OutboundCall).days = computeDays QueryNum.absent
      ∧ (⟨rows2.map toFcTxn, 30⟩ : OutboundCall).days ≤ 365)
    ∧ ((forecastKey "u" 30,
          (⟨forecastResponseData rows2 30 [], 0, 0 + FORECAST_CACHE_TTL⟩ : CacheEntry ForecastData))
            ∈ CacheState.initial.forecastCache
        ∨ (forecastKey "u" 30,
            (⟨forecastResponseData rows2 30 [], 0, 0 + FORECAST_CACHE_TTL⟩ : CacheEntry ForecastData)).2.value.forecastDays
          = computeDays QueryNum.absent) := by
  have h := horizon_cap CacheState.initial 0 "u" QueryNum.absent QueryNum.absent rows2 (.ok (some []))
  refine ⟨h.2.2.2.1 _ (by decide), ?_⟩
  exact h.2.2.2.2 _ (by decide)


/-! ### C7: insight scenario -/

set_option maxRecDepth 16384 in
/-- C7: for the series [(d1,100),(d2,50),(d3,-20)] the insight extractor
emits the declining-trend statement and the negative-period warning,
locates the peak at d1 with value 100 and the trough at d3 with value -20,
and reports a burn rate of 20, the mean of the absolute values of the
negative subset. -/
theorem insight_scenario (d1 d2 d3 : String) :
    Insight.trendDeclining ∈ (generateInsights [⟨d1, 100⟩, ⟨d2, 50⟩, ⟨d3, -20⟩]).insights
    ∧ Insight.negativePeriods ∈ (generateInsights [⟨d1, 100⟩, ⟨d2, 50⟩, ⟨d3, -20⟩]).insights
    ∧ Insight.peak d1 100 ∈ (generateInsights [⟨d1, 100⟩, ⟨d2, 50⟩, ⟨d3, -20⟩]).insights
    ∧ Insight.trough d3 (-20) ∈ (generateInsights [⟨d1, 100⟩, ⟨d2, 50⟩, ⟨d3, -20⟩]).insights
    ∧ Insight.burnRate 20 ∈ (generateInsights [⟨d1, 100⟩, ⟨d2, 50⟩, ⟨d3, -20⟩]).insights := by
  have e : (generateInsights [⟨d1, 100⟩, ⟨d2, 50⟩, ⟨d3, -20⟩]).insights
      = [Insight.trendDeclining, Insight.avgBelowFirst, Insight.negativePeriods,
         Insight.highVolatility, Insight.peak d1 100, Insight.trough d3 (-20),
         Insight.burnRate 20] := by
    simp [generateInsights]
    norm_num
  rw [e]
  exact ⟨by simp, by simp, by simp, by simp, by simp⟩

/-! ### C9: the factor list is never empty -/

/-- C9: for every input, calculateCreditScore returns a non-empty factor
list containing either the positive or the negative predicted-cashflow
factor, and the fallback factor "Good credit behavior observed" never
appears. -/
theorem factors_never_empty (sixMonthsAgo : Int) (transactions : List CsTxn)
    (forecast : List ForecastPoint) :
    (calculateCreditScore sixMonthsAgo transactions forecast).factors ≠ []
    ∧ ("Positive predicted cashflow trend"
          ∈ (calculateCreditScore sixMonthsAgo transactions forecast).factors
        ∨ "Negative predicted cashflow trend"
          ∈ (calculateCreditScore sixMonthsAgo transactions forecast).factors)
    ∧ "Good credit behavior observed"
        ∉ (calculateCreditScore sixMonthsAgo transactions forecast).factors := by
  simp only [calculateCreditScore, creditScoreComputation]
  split_ifs <;> simp_all

/-! ### C6: credit score boundary -/

/-- C6: with exactly 5 recent transactions, zero large debits, mean recent
credit exactly 20000, total credit covering total debit, and a positive
forecast whose standard deviation is at most half its mean, the score
reaches 110 before clamping, is returned as 100 after clamping to
[0, 100], and the factor list is exactly the single positive factor. -/
theorem credit_score_boundary (sixMonthsAgo : Int) (transactions : List CsTxn)
    (forecast : List ForecastPoint)
    (h5 : (recentOf sixMonthsAgo transactions).length = 5)
    (hld : ((recentOf sixMonthsAgo transactions).filter
        (fun t => decide ((50000 : Rat) < t.debit.getD 0))).length = 0)
    (havg : ((recentOf sixMonthsAgo transactions).map (fun t => t.credit.getD 0)).sum
        / jsDenom (recentOf sixMonthsAgo transactions).length = 20000)
    (hdc : ((recentOf sixMonthsAgo transactions).map (fun t => t.debit.getD 0)).sum
        ≤ ((recentOf sixMonthsAgo transactions).map (fun t => t.credit.getD 0)).sum)
    (hpos : (0 : Rat) < forecastMean forecast)
    (hvol : forecastVariance forecast ≤ (forecastMean forecast * (1 / 2)) ^ 2) :
    (creditScoreComputation sixMonthsAgo transactions forecast).1 = 110
    ∧ (calculateCreditScore sixMonthsAgo transactions forecast).score = 100
    ∧ (calculateCreditScore sixMonthsAgo transactions forecast).factors
        = ["Positive predicted cashflow trend"] := by
  have hp6 : stdDevGtHalfMean forecast = false := by
    have h1 : ¬ (forecastMean forecast < 0) := not_lt.mpr hpos.le
    have h2 : ¬ ((forecastMean forecast * (1 / 2)) ^ 2 < forecastVariance forecast) :=
      not_lt.mpr hvol
    simp only [stdDevGtHalfMean, Bool.or_eq_false_iff, decide_eq_false_iff_not]
    exact ⟨h1, h2⟩
  have hnot1 : ¬ ((recentOf sixMonthsAgo transactions).length < 5) := by
    rw [h5]
    omega
  have hnot2 : ¬ (3 < ((recentOf sixMonthsAgo transactions).filter
      (fun t => decide ((50000 : Rat) < t.debit.getD 0))).length) := by
    rw [hld]
    omega
  have hnot3 : ¬ (((recentOf sixMonthsAgo transactions).map (fun t => t.credit.getD 0)).sum
      / jsDenom (recentOf sixMonthsAgo transactions).length < 20000) := by
    rw [havg]
    exact lt_irrefl _
  have hnot4 : ¬ (((recentOf sixMonthsAgo transactions).map (fun t => t.credit.getD 0)).sum
      < ((recentOf sixMonthsAgo transactions).map (fun t => t.debit.getD 0)).sum) :=
    not_lt.mpr hdc
  refine ⟨?_, ?_, ?_⟩
  · simp [creditScoreComputation, hnot1, hnot2, hnot3, hnot4, hpos, hp6]
  · simp [calculateCreditScore, creditScoreComputation, hnot1, hnot2, hnot3, hnot4, hpos, hp6]
  · simp [calculateCreditScore, creditScoreComputation, hnot1, hnot2, hnot3, hnot4, hpos, hp6]

/-- Five recent transactions with credit 20000 each and no debit. -/
def csTxns5 : List CsTxn :=
  [⟨1, some 0, some 20000⟩, ⟨2, some 0, some 20000⟩, ⟨3, some 0, some 20000⟩,
   ⟨4, some 0, some 20000⟩, ⟨5, some 0, some 20000⟩]

/-- A flat positive forecast: mean 100, zero variance. -/
def flatForecast : List ForecastPoint := [⟨"d1", 100⟩, ⟨"d2", 100⟩]

/-- Witness for C6 on the concrete boundary scenario. -/
theorem credit_score_boundary_w :
    (creditScoreComputation 0 csTxns5 flatForecast).1 = 110
    ∧ (calculateCreditScore 0 csTxns5 flatForecast).score = 100
    ∧ (calculateCreditScore 0 csTxns5 flatForecast).factors
        = ["Positive predicted cashflow trend"] :=
  credit_score_boundary 0 csTxns5 flatForecast
    (by norm_num [recentOf, csTxns5])
    (by norm_num [recentOf, csTxns5])
    (by norm_num [recentOf, csTxns5, jsDenom])
    (by norm_num [recentOf, csTxns5])
    (by norm_num [forecastMean, flatForecast, jsDenom])
    (by norm_num [forecastMean, forecastVariance, flatForecast, jsDenom])


set_option maxRecDepth 16384 in
/-- Witness for C7 at concrete dates. -/
theorem insight_scenario_w :
    Insight.trendDeclining ∈ (generateInsights [⟨"a", 100⟩, ⟨"b", 50⟩, ⟨"c", -20⟩]).insights
    ∧ Insight.negativePeriods ∈ (generateInsights [⟨"a", 100⟩, ⟨"b", 50⟩, ⟨"c", -20⟩]).insights
    ∧ Insight.burnRate 20 ∈ (generateInsights [⟨"a", 100⟩, ⟨"b", 50⟩, ⟨"c", -20⟩]).insights := by
  have h := insight_scenario "a" "b" "c"
  exact ⟨h.1, h.2.1, h.2.2.2.2⟩

/-- Witness for C9 at a concrete input. -/
theorem factors_never_empty_w :
    (calculateCreditScore 0 csTxns5 flatForecast).factors ≠ []
    ∧ "Good credit behavior observed" ∉ (calculateCreditScore 0 csTxns5 flatForecast).factors := by
  have h := factors_never_empty 0 csTxns5 flatForecast
  exact ⟨h.1, h.2.2⟩


end Intelliflow
